import Mathlib

/-!
Verification of the fpl-chatbot frontend against its design spec.

The development shallowly embeds the stateful React components as pure
Lean functions over explicit state:

* the chat page (`src/frontend/src/pages/ChatPage.jsx`, two revisions in
  the file, and the superseded revision `src/unnamed/part_005`): turn
  list, send guard, streaming loop, error handler, busy flag;
* the server-status poller (`src/frontend/src/contexts/ServerStatusContext.jsx`):
  `checkStatus` over an abstract HTTP response, the stop-on-first-success
  polling loop, and the trace of readiness values it produces;
* the login form (`src/frontend/src/pages/LoginPage.jsx`): the numeric-id
  validation, the team-fetch URL, and the displayed error text;
* the fixture-difficulty colour maps (`src/unnamed/part_003` and
  `src/unnamed/part_004`).

Network effects are made explicit: a fetch outcome is a datum
(`FetchResult`, `StatusResp`, ...) and each handler is a total function of
the state and that outcome, so "no exception propagates" is totality of
the embedded function and "no network call is issued" is visible in the
returned action value.
-/

namespace FPLChatbot

/-! ## Generic helper: mutating the last element of a list

The JS handlers repeatedly mutate `messages[messages.length - 1]`
(leaving every other element untouched); `updateLast` is that operation
on immutable lists. -/

def updateLast {α : Type} (f : α → α) : List α → List α
  | [] => []
  | [t] => [f t]
  | a :: b :: rest => a :: updateLast f (b :: rest)

/-! ## Chat data model

`ConversationTurn` from the spec; the source objects are
`{ role: 'user' | 'assistant', text, error }` (the earliest revision uses
the key `sender` with values `'user'` / `'bot'` for the same two roles,
and omits the error flag, which we render as `error := false`). -/

inductive Role
  | user
  | assistant
deriving DecidableEq, Repr

structure Turn where
  role : Role
  text : String
  error : Bool
deriving DecidableEq, Repr

/-- The fixed apology string written into the placeholder on failure
(`ChatPage.jsx`, both revisions, and `part_005`). -/
def apology : String := "Sorry, I had a problem thinking. Please try again."

/-- The concatenation `c1 ++ c2 ++ ... ++ cN` of a chunk list in delivery
order. -/
def concatChunks : List String → String
  | [] => ""
  | c :: cs => c ++ concatChunks cs

/-! ## Streaming loop, current `ChatPage.jsx` revision

The second revision of `ChatPage.jsx` accumulates
`botResponse += decoder.decode(value)` and, for each chunk, rewrites the
last message (when it is an assistant turn) to the accumulated text. -/

/-- One chunk arrival: `bot` is the `botResponse` accumulator *after*
appending the current chunk; the last message, if an assistant turn, gets
`text := botResponse`. -/
def chunkWrite (bot : String) (t : Turn) : Turn :=
  if t.role == Role.assistant then { t with text := bot } else t

/-- The `while (true) { read(); ... }` loop of the current `ChatPage.jsx`
revision, folded over the list of delivered chunks. -/
def streamChunks2 : String → List String → List Turn → List Turn
  | _, [], msgs => msgs
  | bot, c :: cs, msgs => streamChunks2 (bot ++ c) cs (updateLast (chunkWrite (bot ++ c)) msgs)

/-- The `catch` block of the current `ChatPage.jsx` revision: if the last
message is an assistant turn, overwrite its text with the apology and set
its error flag. -/
def catchHandler2 (msgs : List Turn) : List Turn :=
  updateLast
    (fun t => if t.role == Role.assistant then { t with text := apology, error := true } else t)
    msgs

/-- Outcome of the chat `fetch`: either the call itself threw
(`netError`), or a response arrived with a success flag, a body-presence
flag, the chunks delivered before the stream ended, and whether the
stream then ended in a decode/read error rather than `done`. -/
inductive FetchResult
  | netError
  | response (ok : Bool) (hasBody : Bool) (chunks : List String) (midStreamErr : Bool)
deriving DecidableEq, Repr

/-- True when the fetch outcome takes the current revision down its
failure path: thrown fetch, non-success status, absent body, or a
mid-stream error. -/
def fetchFailed : FetchResult → Bool
  | .netError => true
  | .response ok hasBody _ midStreamErr => !ok || !hasBody || midStreamErr

/-- The try/catch body of the current `ChatPage.jsx` revision, applied to
the message list that already holds the user turn and the assistant
placeholder: `!response.ok || !response.body` throws into the catch
block; otherwise the chunks are streamed, and a mid-stream error lands in
the same catch block. -/
def handleSend2Stream (fr : FetchResult) (msgs : List Turn) : List Turn :=
  match fr with
  | .netError => catchHandler2 msgs
  | .response ok hasBody chunks midStreamErr =>
    if ok && hasBody then
      let streamed := streamChunks2 "" chunks msgs
      if midStreamErr then catchHandler2 streamed else streamed
    else catchHandler2 msgs

/-! ## Streaming loop, earliest `ChatPage.jsx` revision and `part_005` -/

/-- The try/catch body of the *earliest* `ChatPage.jsx` revision: no
`response.ok` check at all; `if (!response.body) return;` silently ends
the handler; each chunk is appended to the last message unconditionally;
the catch block overwrites the last message text with the apology but
never sets an error flag (its turns carry none). -/
def handleSend1Stream (fr : FetchResult) (msgs : List Turn) : List Turn :=
  match fr with
  | .netError => updateLast (fun t => { t with text := apology }) msgs
  | .response _ok hasBody chunks midStreamErr =>
    if !hasBody then msgs
    else
      let streamed :=
        chunks.foldl (fun m c => updateLast (fun t => { t with text := t.text ++ c }) m) msgs
      if midStreamErr then updateLast (fun t => { t with text := apology }) streamed
      else streamed

/-- The chunk loop of the superseded `part_005` revision: it tracks
`lastChunk` (initially the empty string) and appends a chunk to the
accumulated text only when it differs from the immediately preceding
chunk, updating `lastChunk` only on append. -/
def dedupStream : String → List String → String → String
  | _, [], acc => acc
  | lastChunk, c :: cs, acc =>
    if c == lastChunk then dedupStream lastChunk cs acc
    else dedupStream c cs (acc ++ c)

/-- Final text of the assistant placeholder produced by the `part_005`
loop for a delivered chunk list (placeholder starts empty, `lastChunk`
starts empty). -/
def part005FinalText (chunks : List String) : String :=
  dedupStream "" chunks ""

/-! ## Chat page state and the send operation -/

/-- State of the chat page: the conversation, the controlled input box,
the in-flight flag `isLoading`, and the `isServerReady` flag read from
the server-status context. -/
structure ChatState where
  messages : List Turn
  input : String
  isLoading : Bool
  isServerReady : Bool
deriving DecidableEq, Repr

/-- JS truthiness of `input.trim()`: true iff some character of the input
is not whitespace. -/
def trimNonEmpty (s : String) : Bool :=
  s.toList.any (fun c => !c.isWhitespace)

/-- The guard of `handleSend` in the current revision:
`if (!input.trim() || isLoading || !isServerReady) return;` — the send
proceeds exactly when the trimmed input is non-empty, no send is in
flight, and the server is ready. -/
def sendGuard (s : ChatState) : Bool :=
  trimNonEmpty s.input && !s.isLoading && s.isServerReady

/-- The synchronous prefix of `handleSend`: when the guard passes, append
the user turn (carrying the submitted text) and the empty assistant
placeholder, clear the input box, and set `isLoading`; otherwise return
unchanged. -/
def handleSendStart (s : ChatState) : ChatState :=
  if sendGuard s then
    { messages := s.messages ++ [⟨Role.user, s.input, false⟩, ⟨Role.assistant, "", false⟩],
      input := "", isLoading := true, isServerReady := s.isServerReady }
  else s

/-- A whole terminated `handleSend` invocation of the current revision:
guard, synchronous appends, the try/catch stream consumption for the
given fetch outcome, and the `finally { setIsLoading(false); }` clause
that runs on every path out of the try block. -/
def handleSend2 (s : ChatState) (fr : FetchResult) : ChatState :=
  if sendGuard s then
    { messages :=
        handleSend2Stream fr
          (s.messages ++ [⟨Role.user, s.input, false⟩, ⟨Role.assistant, "", false⟩]),
      input := "", isLoading := false, isServerReady := s.isServerReady }
  else s

/-- The disabled condition of the send button:
`disabled={isLoading || !input.trim() || !isServerReady}`. -/
def sendDisabled (s : ChatState) : Bool :=
  s.isLoading || !(trimNonEmpty s.input) || !s.isServerReady

/-! ## Fine-grained event system for the conversation invariants

Each UI-loop event the chat page reacts to, at the granularity at which
the message list is touched. -/

inductive ChatEvent
  | setInput (t : String)
  | serverReady
  | sendStart
  | chunk (c : String)
  | streamFail
  | streamDone
deriving Repr

/-- One event step of the chat page.  `setInput` models typing (the box
is disabled while loading or while the server is not ready);
`serverReady` models the status context flipping to ready; `sendStart`
is the synchronous prefix of `handleSend`; `chunk` appends arriving text
to the last assistant turn while a send is in flight (writing
`text := botResponse` with the accumulated response is the same
per-event write, since the placeholder starts empty); `streamFail` is
the catch block followed by the finally clause; `streamDone` is the
finally clause after a completed stream. -/
def chatStep (s : ChatState) : ChatEvent → ChatState
  | .setInput t => if s.isLoading || !s.isServerReady then s else { s with input := t }
  | .serverReady => { s with isServerReady := true }
  | .sendStart => handleSendStart s
  | .chunk c =>
    if s.isLoading then
      { s with
        messages :=
          updateLast
            (fun t => if t.role == Role.assistant then { t with text := t.text ++ c } else t)
            s.messages }
    else s
  | .streamFail =>
    if s.isLoading then { s with messages := catchHandler2 s.messages, isLoading := false }
    else s
  | .streamDone => { s with isLoading := false }

/-- State of the chat page right after the mount effect seeded the
greeting: one assistant turn whose text `g` is the greeting built from
the team id, empty input, no send in flight, server not yet ready. -/
def initChatState (g : String) : ChatState :=
  { messages := [⟨Role.assistant, g, false⟩], input := "", isLoading := false,
    isServerReady := false }

/-- The conversation states reachable from the seeded chat page by UI
events. -/
inductive Reachable (g : String) : ChatState → Prop
  | init : Reachable g (initChatState g)
  | step {s : ChatState} (e : ChatEvent) : Reachable g s → Reachable g (chatStep s e)

/-- `n` user/assistant pairs: the role pattern appended by `n` sends. -/
def altPairs : Nat → List Role
  | 0 => []
  | n + 1 => Role.user :: Role.assistant :: altPairs n

/-- Strict alternation of a role sequence: no two adjacent entries
equal. -/
def strictAlt : List Role → Bool
  | [] => true
  | [_] => true
  | a :: b :: rest => (a != b) && strictAlt (b :: rest)

/-! ## Server-status poller (`ServerStatusContext.jsx`) -/

/-- Outcome of one `fetch` of the status endpoint: the call threw
(unreachable server), or a response arrived with its success flag and the
`players_in_master_df` count of the parsed JSON body. -/
inductive StatusResp
  | netFail
  | resp (ok : Bool) (playersInMasterDf : Int)
deriving DecidableEq, Repr

/-- The shared `ServerStatus` record: readiness flag and human-readable
status message. -/
structure ServerStatus where
  isServerReady : Bool
  statusMessage : String
deriving DecidableEq, Repr

/-- The provider state at mount:
`useState(false)` / `useState('Connecting to server...')`. -/
def initServerStatus : ServerStatus :=
  { isServerReady := false, statusMessage := "Connecting to server..." }

/-- `checkStatus` of `ServerStatusContext.jsx`: a thrown fetch and a
non-success response both land in the catch block, which only rewrites
the status message and reports "keep polling" (`false`); a response with
`players_in_master_df > 0` sets the readiness flag and reports "stop
polling" (`true`); any other response only rewrites the message.  The
embedded function is total: no outcome escapes it. -/
def checkStatus (r : StatusResp) (s : ServerStatus) : ServerStatus × Bool :=
  match r with
  | .netFail =>
    ({ s with statusMessage := "Could not connect to the server. It might be starting up." },
      false)
  | .resp ok players =>
    if !ok then
      ({ s with statusMessage := "Could not connect to the server. It might be starting up." },
        false)
    else if players > 0 then
      ({ isServerReady := true, statusMessage := "Server is ready." }, true)
    else
      ({ s with statusMessage := "Server is starting up, loading data..." }, false)

/-- True when the status check takes its failure path: unreachable
endpoint or non-success response code. -/
def statusCheckFailed : StatusResp → Bool
  | .netFail => true
  | .resp ok _ => !ok

/-- The polling loop (`pollServer` plus the interval): run `checkStatus`
on each successive response, stopping after the first one that reports
ready (`clearInterval`). -/
def pollRun : List StatusResp → ServerStatus → ServerStatus
  | [], s => s
  | r :: rs, s =>
    let p := checkStatus r s
    if p.2 then p.1 else pollRun rs p.1

/-- The trace of values the readiness flag takes along a polling run: the
value before any check, then the value after each check, cut off when the
poller cancels itself. -/
def readyTrace : List StatusResp → ServerStatus → List Bool
  | [], s => [s.isServerReady]
  | r :: rs, s =>
    let p := checkStatus r s
    if p.2 then [s.isServerReady, p.1.isServerReady]
    else s.isServerReady :: readyTrace rs p.1

/-- No true-to-false step anywhere in a Boolean trace. -/
def monotoneB : List Bool → Bool
  | [] => true
  | [_] => true
  | a :: b :: rest => (!a || b) && monotoneB (b :: rest)

/-- Number of value changes along a Boolean trace. -/
def countFlips : List Bool → Nat
  | [] => 0
  | [_] => 0
  | a :: b :: rest => (if a != b then 1 else 0) + countFlips (b :: rest)

/-! ## Login page (`LoginPage.jsx`) -/

/-- The validation `/^\d+$/.test(inputId)`: at least one character and
every character an ASCII digit. -/
def isValidTeamId (s : String) : Bool :=
  !s.toList.isEmpty && s.toList.all Char.isDigit

/-- What a form submission does, made explicit: either it is rejected
locally with a validation message (no fetch of any kind is issued), or a
single team-fetch request is issued to the given URL. -/
inductive LoginAction
  | localReject (errorMsg : String)
  | request (url : String)
deriving DecidableEq, Repr

/-- Path component of the team-fetch request of `LoginPage.jsx`. -/
def teamFetchPath (inputId : String) : String :=
  "/api/get-team-data/" ++ inputId

/-- Full team-fetch URL of `LoginPage.jsx`. -/
def teamFetchURL (inputId : String) : String :=
  "http://127.0.0.1:8000" ++ teamFetchPath inputId

/-- `handleSubmit` of `LoginPage.jsx` up to the network boundary: a
non-numeric id sets the validation error and returns before any fetch;
a numeric id issues the team-fetch request. -/
def handleSubmit (inputId : String) : LoginAction :=
  if !(isValidTeamId inputId) then
    LoginAction.localReject "Please enter a valid FPL Team ID (numbers only)."
  else
    LoginAction.request (teamFetchURL inputId)

/-- JS `errorData.detail || fallback`: the detail string when present and
non-empty, else the fallback. -/
def jsOr (detail : Option String) (fallback : String) : String :=
  match detail with
  | some d => if d == "" then fallback else d
  | none => fallback

/-- The error text `LoginPage.jsx` displays after the team-fetch
response: on success none is set; on a non-success response the thrown
message — the backend `detail` when present, else the fixed fallback —
is caught and stored in the error state. -/
def displayedLoginError (ok : Bool) (detail : Option String) : Option String :=
  if ok then none
  else some (jsOr detail "Team ID not found. Please check and try again.")

/-! ## Fixture difficulty colours -/

/-- `getDifficultyColor` of the later `FixturesPage` revision
(`part_003`, also repeated in `part_004`): a threshold chain. -/
def getDifficultyColor (difficulty : Int) : String :=
  if difficulty ≤ 2 then "bg-teal-600 hover:bg-teal-500"
  else if difficulty = 3 then "bg-slate-500 hover:bg-slate-400"
  else if difficulty = 4 then "bg-rose-600 hover:bg-rose-500"
  else if difficulty ≥ 5 then "bg-red-800 hover:bg-red-700"
  else "bg-gray-400"

/-- `getDifficultyColor` of the `part_004` revision: a five-case switch,
one colour per difficulty value, commented in the source as a 5-point
scale from brightest green (easiest) to darkest red (hardest). -/
def getDifficultyColorSwitch (difficulty : Int) : String :=
  if difficulty = 1 then "bg-emerald-500"
  else if difficulty = 2 then "bg-green-500"
  else if difficulty = 3 then "bg-slate-500"
  else if difficulty = 4 then "bg-red-500"
  else if difficulty = 5 then "bg-red-700"
  else "bg-gray-400"

/-- Severity rank of the switch-scale colours, in the easiest-to-hardest
order the source comments document. -/
def tierRankSwitch (c : String) : Nat :=
  if c = "bg-emerald-500" then 0
  else if c = "bg-green-500" then 1
  else if c = "bg-slate-500" then 2
  else if c = "bg-red-500" then 3
  else if c = "bg-red-700" then 4
  else 5

/-- Severity rank of the threshold-chain colours, easiest to hardest. -/
def tierRankChain (c : String) : Nat :=
  if c = "bg-teal-600 hover:bg-teal-500" then 0
  else if c = "bg-slate-500 hover:bg-slate-400" then 1
  else if c = "bg-rose-600 hover:bg-rose-500" then 2
  else if c = "bg-red-800 hover:bg-red-700" then 3
  else 4

/-- Shape of every reachable conversation: the greeting assistant turn
followed by some number of user/assistant pairs. -/
def ChatWF (msgs : List Turn) : Prop :=
  ∃ n, msgs.map Turn.role = Role.assistant :: altPairs n

/-- A concrete pre-send state: empty conversation, input `"hi"`, no send
in flight, server ready. -/
def demoPreSend : ChatState :=
  { messages := [], input := "hi", isLoading := false, isServerReady := true }

/-! ## Helper lemmas -/

theorem updateLast_append {α : Type} (f : α → α) (l : List α) (t : α) :
    updateLast f (l ++ [t]) = l ++ [f t] := by
  induction l with
  | nil => rfl
  | cons a l ih => cases l <;> simp_all [updateLast]

theorem updateLast_getElem? {α : Type} (f : α → α) :
    ∀ (l : List α) (i : Nat), i + 1 < l.length → (updateLast f l)[i]? = l[i]?
  | [], _, _ => rfl
  | [_], _, h => by simp at h
  | _ :: _ :: _, 0, _ => by simp [updateLast]
  | a :: b :: rest, i + 1, h => by
    have := updateLast_getElem? f (b :: rest) i (by simpa using h)
    simpa [updateLast] using this

/-! ## Stream lemmas -/

theorem streamChunks2_closed (cs : List String) :
    ∀ (bot : String) (init : List Turn) (e : Bool),
      streamChunks2 bot cs (init ++ [⟨Role.assistant, bot, e⟩]) =
        init ++ [⟨Role.assistant, bot ++ concatChunks cs, e⟩] := by
  induction cs with
  | nil => intro bot init e; simp [streamChunks2, concatChunks]
  | cons c cs ih =>
    intro bot init e
    have hu :
        updateLast (chunkWrite (bot ++ c)) (init ++ [⟨Role.assistant, bot, e⟩]) =
          init ++ [⟨Role.assistant, bot ++ c, e⟩] := by
      rw [updateLast_append]; simp [chunkWrite]
    calc streamChunks2 bot (c :: cs) (init ++ [⟨Role.assistant, bot, e⟩])
        = streamChunks2 (bot ++ c) cs (init ++ [⟨Role.assistant, bot ++ c, e⟩]) := by
          simp [streamChunks2, hu]
      _ = init ++ [⟨Role.assistant, (bot ++ c) ++ concatChunks cs, e⟩] := ih (bot ++ c) init e
      _ = init ++ [⟨Role.assistant, bot ++ concatChunks (c :: cs), e⟩] := by
          simp [concatChunks, String.append_assoc]

theorem catchHandler2_closed (init : List Turn) (x : String) (e : Bool) :
    catchHandler2 (init ++ [⟨Role.assistant, x, e⟩]) = init ++ [⟨Role.assistant, apology, true⟩] := by
  rw [catchHandler2, updateLast_append]; simp

/-- Claim C1: for every chat request that completes its stream in the
current `ChatPage.jsx` revision, the final text of the assistant
placeholder is exactly the concatenation of the delivered chunks in
delivery order, with nothing reordered, dropped or deduplicated; the
superseded `part_005` loop, by contrast, drops the second of two
consecutive identical chunks: on the delivery `["Hello ", "Hello "]` it
produces `"Hello "` where the concatenation is `"Hello Hello "`. -/
theorem C1_stream_is_exact_concatenation :
    (∀ (prior : List Turn) (q : String) (cs : List String),
        (streamChunks2 "" cs
            (prior ++ [⟨Role.user, q, false⟩, ⟨Role.assistant, "", false⟩])).getLast? =
          some ⟨Role.assistant, concatChunks cs, false⟩) ∧
    part005FinalText ["Hello ", "Hello "] = "Hello " ∧
    concatChunks ["Hello ", "Hello "] = "Hello Hello " := by
  refine ⟨?_, rfl, rfl⟩
  intro prior q cs
  have h := streamChunks2_closed cs "" (prior ++ [⟨Role.user, q, false⟩]) false
  rw [show prior ++ [⟨Role.user, q, false⟩, ⟨Role.assistant, "", false⟩] =
        (prior ++ [⟨Role.user, q, false⟩]) ++ [(⟨Role.assistant, "", false⟩ : Turn)] by simp,
      h, String.empty_append, List.getLast?_concat]

/-- Claim C3 counterexample: in the earliest `ChatPage.jsx` revision, a
chat send whose response has a non-success status and an absent body is a
no-op on the conversation (`if (!response.body) return;`): the assistant
placeholder keeps its empty text — not the apology — and its failed flag
stays false. -/
theorem C3_counterexample :
    handleSend1Stream (FetchResult.response false false [] false)
        [⟨Role.assistant, "hello", false⟩, ⟨Role.user, "q", false⟩, ⟨Role.assistant, "", false⟩] =
      [⟨Role.assistant, "hello", false⟩, ⟨Role.user, "q", false⟩, ⟨Role.assistant, "", false⟩] ∧
    ("" : String) ≠ apology := by
  exact ⟨rfl, by decide⟩

/-- Claim C3 as amended: in the current `ChatPage.jsx` revision (which
throws on `!response.ok || !response.body`), every chat send whose fetch
outcome is a failure — thrown fetch, non-success status, absent body, or
mid-stream error — leaves the assistant placeholder with exactly the
fixed apology text and its error flag set; the earliest revision instead
returns silently on an absent body and never checks the status code. -/
theorem C3_failure_overwrites_placeholder (prior : List Turn) (q : String) (fr : FetchResult)
    (h : fetchFailed fr = true) :
    (handleSend2Stream fr
        (prior ++ [⟨Role.user, q, false⟩, ⟨Role.assistant, "", false⟩])).getLast? =
      some ⟨Role.assistant, apology, true⟩ := by
  have hsplit : prior ++ [⟨Role.user, q, false⟩, ⟨Role.assistant, "", false⟩] =
      (prior ++ [⟨Role.user, q, false⟩]) ++ [(⟨Role.assistant, "", false⟩ : Turn)] := by simp
  rw [hsplit]
  match fr with
  | .netError =>
    rw [handleSend2Stream, catchHandler2_closed, List.getLast?_concat]
  | .response ok hasBody chunks midStreamErr =>
    by_cases hok : (ok && hasBody) = true
    · obtain ⟨h1, h2⟩ := Bool.and_eq_true_iff.mp hok
      have hmid : midStreamErr = true := by simpa [fetchFailed, h1, h2] using h
      rw [handleSend2Stream, if_pos hok, hmid]
      simp only [if_true]
      rw [streamChunks2_closed, catchHandler2_closed, List.getLast?_concat]
    · rw [handleSend2Stream, if_neg hok, catchHandler2_closed, List.getLast?_concat]

/-- Claim C3 witness: a thrown fetch on a one-question conversation. -/
theorem C3_witness :
    (handleSend2Stream FetchResult.netError
        ([] ++ [⟨Role.user, "hi", false⟩, ⟨Role.assistant, "", false⟩])).getLast? =
      some ⟨Role.assistant, apology, true⟩ :=
  C3_failure_overwrites_placeholder [] "hi" FetchResult.netError rfl

/-! ## Poller lemmas -/

theorem checkStatus_ready_of_stop (r : StatusResp) (s : ServerStatus)
    (h : (checkStatus r s).2 = true) : (checkStatus r s).1.isServerReady = true := by
  cases r with
  | netFail => simp [checkStatus] at h
  | resp ok players =>
    by_cases hok : (!ok) = true
    · simp [checkStatus, hok] at h
    · by_cases hp : (0 : Int) < players
      · simp [checkStatus, hok, hp]
      · simp [checkStatus, hok, hp] at h

theorem checkStatus_ready_of_continue (r : StatusResp) (s : ServerStatus)
    (h : (checkStatus r s).2 = false) : (checkStatus r s).1.isServerReady = s.isServerReady := by
  cases r with
  | netFail => rfl
  | resp ok players =>
    by_cases hok : (!ok) = true
    · simp [checkStatus, hok]
    · by_cases hp : (0 : Int) < players
      · simp [checkStatus, hok, hp] at h
      · simp [checkStatus, hok, hp]

theorem readyTrace_head (rs : List StatusResp) (s : ServerStatus) :
    (readyTrace rs s).head? = some s.isServerReady := by
  cases rs with
  | nil => rfl
  | cons r rs =>
    rw [readyTrace]
    by_cases h : (checkStatus r s).2 = true <;> simp [h]

theorem readyTrace_props (rs : List StatusResp) :
    ∀ (s : ServerStatus), s.isServerReady = false →
      monotoneB (readyTrace rs s) = true ∧ countFlips (readyTrace rs s) ≤ 1 := by
  induction rs with
  | nil => intro s _; exact ⟨rfl, by simp [readyTrace, countFlips]⟩
  | cons r rs ih =>
    intro s hs
    rw [readyTrace]
    by_cases hstop : (checkStatus r s).2 = true
    · rw [if_pos hstop, checkStatus_ready_of_stop r s hstop, hs]
      exact ⟨rfl, by simp [countFlips]⟩
    · have hstop' : (checkStatus r s).2 = false := by
        cases h2 : (checkStatus r s).2
        · rfl
        · exact absurd h2 hstop
      have hready : (checkStatus r s).1.isServerReady = false := by
        rw [checkStatus_ready_of_continue r s hstop', hs]
      rw [if_neg hstop, hs]
      obtain ⟨hmono, hflips⟩ := ih (checkStatus r s).1 hready
      have hhd := readyTrace_head rs (checkStatus r s).1
      rw [hready] at hhd
      obtain ⟨tl, htl⟩ : ∃ tl, readyTrace rs (checkStatus r s).1 = false :: tl := by
        cases hcase : readyTrace rs (checkStatus r s).1 with
        | nil => rw [hcase] at hhd; simp at hhd
        | cons b tl =>
          rw [hcase] at hhd
          simp only [List.head?_cons, Option.some.injEq] at hhd
          exact ⟨tl, by rw [hhd]⟩
      rw [htl] at hmono hflips ⊢
      constructor
      · simpa [monotoneB] using hmono
      · simpa [countFlips] using hflips

/-- Claim C2: for every sequence of status responses in one provider
session, the trace of values the shared readiness flag takes starts at
false, never steps from true back to false, and changes value at most
once — the poller sets the flag only on its success path and cancels
itself there, and no code path ever writes false after initialization. -/
theorem C2_ready_transitions_at_most_once (rs : List StatusResp) :
    (readyTrace rs initServerStatus).head? = some false ∧
    monotoneB (readyTrace rs initServerStatus) = true ∧
    countFlips (readyTrace rs initServerStatus) ≤ 1 := by
  refine ⟨readyTrace_head rs initServerStatus, ?_, ?_⟩
  · exact (readyTrace_props rs initServerStatus rfl).1
  · exact (readyTrace_props rs initServerStatus rfl).2

theorem pollRun_all_failed (rs : List StatusResp) :
    ∀ (s : ServerStatus), (∀ x ∈ rs, statusCheckFailed x = true) →
      (pollRun rs s).isServerReady = s.isServerReady := by
  induction rs with
  | nil => intro s _; rfl
  | cons r rs ih =>
    intro s hall
    have hr : statusCheckFailed r = true := hall r (List.mem_cons_self r rs)
    have hcont : (checkStatus r s).2 = false := by
      cases r with
      | netFail => rfl
      | resp ok players =>
        have : ok = false := by simpa [statusCheckFailed] using hr
        simp [checkStatus, this]
    have hready : (checkStatus r s).1.isServerReady = s.isServerReady :=
      checkStatus_ready_of_continue r s hcont
    rw [pollRun]
    simp only [hcont, Bool.false_eq_true, if_false]
    rw [ih (checkStatus r s).1 (fun x hx => hall x (List.mem_cons_of_mem r hx)), hready]

/-- Claim C8: a single poller check whose fetch fails or whose response
has a non-success code is absorbed inside `checkStatus` (the embedded
function is total, so nothing propagates): the readiness flag is left
untouched, only the human-readable status message is rewritten, and the
check reports false so the fixed-interval polling continues; consequently
a whole run of failing checks leaves the flag false. -/
theorem C8_poll_failure_is_not_ready (s : ServerStatus) (r : StatusResp) (rs : List StatusResp)
    (h : statusCheckFailed r = true) (hall : ∀ x ∈ rs, statusCheckFailed x = true) :
    (checkStatus r s).1.isServerReady = s.isServerReady ∧
    (checkStatus r s).2 = false ∧
    (checkStatus r s).1.statusMessage =
      "Could not connect to the server. It might be starting up." ∧
    (pollRun rs initServerStatus).isServerReady = false := by
  have hcont : (checkStatus r s).2 = false := by
    cases r with
    | netFail => rfl
    | resp ok players =>
      have : ok = false := by simpa [statusCheckFailed] using h
      simp [checkStatus, this]
  refine ⟨checkStatus_ready_of_continue r s hcont, hcont, ?_, ?_⟩
  · cases r with
    | netFail => rfl
    | resp ok players =>
      have : ok = false := by simpa [statusCheckFailed] using h
      simp [checkStatus, this]
  · exact pollRun_all_failed rs initServerStatus hall

/-- Claim C8 witness: an unreachable endpoint followed by a run of an
unreachable endpoint and a 500 response. -/
theorem C8_witness :
    (checkStatus StatusResp.netFail initServerStatus).1.isServerReady =
      initServerStatus.isServerReady ∧
    (checkStatus StatusResp.netFail initServerStatus).2 = false ∧
    (checkStatus StatusResp.netFail initServerStatus).1.statusMessage =
      "Could not connect to the server. It might be starting up." ∧
    (pollRun [StatusResp.netFail, StatusResp.resp false 3]
        initServerStatus).isServerReady = false :=
  C8_poll_failure_is_not_ready initServerStatus StatusResp.netFail
    [StatusResp.netFail, StatusResp.resp false 3] rfl (by decide)

/-! ## Send operation -/

/-- Claim C4: the chat send is a no-op on the conversation and on the
in-flight flag whenever its precondition fails (trimmed input empty, a
send already in flight, or the server not ready); when the precondition
holds it synchronously appends exactly two turns — a user turn carrying
the submitted text and an empty assistant placeholder — sets the
in-flight flag, and the send affordance becomes disabled. -/
theorem C4_send_precondition (s : ChatState) :
    (sendGuard s = false → handleSendStart s = s) ∧
    (sendGuard s = true →
      (handleSendStart s).messages =
        s.messages ++ [⟨Role.user, s.input, false⟩, ⟨Role.assistant, "", false⟩] ∧
      (handleSendStart s).isLoading = true ∧
      sendDisabled (handleSendStart s) = true) := by
  constructor
  · intro h
    rw [handleSendStart, if_neg (by rw [h]; exact Bool.false_ne_true)]
  · intro h
    rw [handleSendStart, if_pos h]
    exact ⟨rfl, rfl, by simp [sendDisabled]⟩

/-- Claim C4 witness: the guard passes on `demoPreSend` and the send
appends the two turns and raises the flag. -/
theorem C4_witness :
    (handleSendStart demoPreSend).messages =
      demoPreSend.messages ++
        [⟨Role.user, demoPreSend.input, false⟩, ⟨Role.assistant, "", false⟩] ∧
    (handleSendStart demoPreSend).isLoading = true ∧
    sendDisabled (handleSendStart demoPreSend) = true :=
  (C4_send_precondition demoPreSend).2 (by decide)

/-- Claim C10: every chat send invocation that passes the guard and then
terminates — whatever the fetch outcome: completed stream, thrown fetch,
non-success status, absent body, or mid-stream error — ends with the
in-flight flag false, because the reset sits in the finally clause. -/
theorem C10_busy_reset_on_termination (s : ChatState) (fr : FetchResult)
    (h : sendGuard s = true) :
    (handleSend2 s fr).isLoading = false := by
  rw [handleSend2, if_pos h]

/-- Claim C10 witness: a send from `demoPreSend` whose fetch throws still
ends with the flag lowered. -/
theorem C10_witness : (handleSend2 demoPreSend FetchResult.netError).isLoading = false :=
  C10_busy_reset_on_termination demoPreSend FetchResult.netError (by decide)

/-! ## Login -/

/-- Claim C5: for every identifier that does not match `^\d+$`, the form
submission is rejected locally — the fixed validation message is set and
the resulting action is `localReject`, which issues no network request of
any kind (`request` is the only action carrying a fetch). -/
theorem C5_nonnumeric_rejected_locally (s : String) (h : isValidTeamId s = false) :
    handleSubmit s =
      LoginAction.localReject "Please enter a valid FPL Team ID (numbers only)." := by
  rw [handleSubmit, if_pos (by rw [h]; rfl)]

/-- Claim C5 witness: the identifier `"12a45"` is rejected locally. -/
theorem C5_witness :
    handleSubmit "12a45" =
      LoginAction.localReject "Please enter a valid FPL Team ID (numbers only)." :=
  C5_nonnumeric_rejected_locally "12a45" (by decide)

/-- Claim C7 counterexample: submitting `12345` issues the team-fetch
request to the path `/api/get-team-data/12345`, not to `/team/12345` as
the claim states. -/
theorem C7_counterexample :
    handleSubmit "12345" = LoginAction.request (teamFetchURL "12345") ∧
    teamFetchPath "12345" ≠ "/team/12345" :=
  ⟨rfl, by decide⟩

/-- Claim C7 as amended: submitting the identifier `12345` issues the
team-fetch request to the path `/api/get-team-data/12345` (the route the
spec table abbreviates as the team-fetch call), and when that request
returns a non-success status with body `{"detail":"Team ID not found"}`,
the displayed error text is exactly `Team ID not found`. -/
theorem C7_team_fetch_and_error_text :
    handleSubmit "12345" =
      LoginAction.request "http://127.0.0.1:8000/api/get-team-data/12345" ∧
    displayedLoginError false (some "Team ID not found") = some "Team ID not found" :=
  ⟨rfl, rfl⟩

/-! ## Fixture difficulty -/

/-- Claim C6 counterexample: under the threshold-chain
`getDifficultyColor` (the revision in `part_003`), the difficulty values
1 and 2 map to the same visual tier, so the five values do not map to
five distinct tiers. -/
theorem C6_counterexample : getDifficultyColor 1 = getDifficultyColor 2 := rfl

/-- Claim C6 as amended: the switch-based `getDifficultyColor` of
`part_004` maps each difficulty 1..5 to one of five pairwise-distinct
fixed tiers, strictly monotonic in difficulty; the threshold-chain
revision of `part_003` instead maps 1 and 2 to one shared easiest tier
and 3, 4, 5 to three further distinct tiers, monotone but not
injective. -/
theorem C6_difficulty_tiers :
    ([getDifficultyColorSwitch 1, getDifficultyColorSwitch 2, getDifficultyColorSwitch 3,
        getDifficultyColorSwitch 4, getDifficultyColorSwitch 5].Nodup ∧
      ∀ d : Fin 4,
        tierRankSwitch (getDifficultyColorSwitch ((d.val : Int) + 1)) <
          tierRankSwitch (getDifficultyColorSwitch ((d.val : Int) + 2))) ∧
    (getDifficultyColor 1 = getDifficultyColor 2 ∧
      [getDifficultyColor 2, getDifficultyColor 3, getDifficultyColor 4,
        getDifficultyColor 5].Nodup ∧
      ∀ d : Fin 4,
        tierRankChain (getDifficultyColor ((d.val : Int) + 1)) ≤
          tierRankChain (getDifficultyColor ((d.val : Int) + 2))) := by
  refine ⟨⟨by decide, by decide⟩, rfl, by decide, by decide⟩

/-! ## Conversation invariants -/

theorem updateLast_map_role (f : Turn → Turn) (hf : ∀ t, (f t).role = t.role) :
    ∀ l : List Turn, (updateLast f l).map Turn.role = l.map Turn.role
  | [] => rfl
  | [t] => by simp [updateLast, hf]
  | a :: b :: rest => by
    simp only [updateLast, List.map_cons]
    rw [updateLast_map_role f hf (b :: rest)]
    simp

theorem altPairs_snoc (n : Nat) :
    altPairs n ++ [Role.user, Role.assistant] = altPairs (n + 1) := by
  induction n with
  | zero => rfl
  | succ n ih => simpa [altPairs] using ih

theorem chatStep_wf (s : ChatState) (e : ChatEvent) (h : ChatWF s.messages) :
    ChatWF (chatStep s e).messages := by
  obtain ⟨n, hn⟩ := h
  cases e with
  | setInput t =>
    refine ⟨n, ?_⟩
    rw [chatStep]; split <;> exact hn
  | serverReady => exact ⟨n, hn⟩
  | streamDone => exact ⟨n, hn⟩
  | sendStart =>
    rw [chatStep, handleSendStart]
    split
    · refine ⟨n + 1, ?_⟩
      show (s.messages ++
          [(⟨Role.user, s.input, false⟩ : Turn), ⟨Role.assistant, "", false⟩]).map
          Turn.role = _
      rw [List.map_append, hn]
      show Role.assistant :: (altPairs n ++ [Role.user, Role.assistant]) = _
      rw [altPairs_snoc]
    · exact ⟨n, hn⟩
  | chunk c =>
    rw [chatStep]; split
    · refine ⟨n, ?_⟩
      show (updateLast _ s.messages).map Turn.role = _
      rw [updateLast_map_role _ (fun t => by split <;> rfl) s.messages, hn]
    · exact ⟨n, hn⟩
  | streamFail =>
    rw [chatStep]; split
    · refine ⟨n, ?_⟩
      show (updateLast _ s.messages).map Turn.role = _
      rw [updateLast_map_role _ (fun t => by split <;> rfl) s.messages, hn]
    · exact ⟨n, hn⟩

theorem reachable_wf (g : String) (s : ChatState) (h : Reachable g s) : ChatWF s.messages := by
  induction h with
  | init => exact ⟨0, rfl⟩
  | step e _ ih => exact chatStep_wf _ e ih

theorem strictAlt_altPairs (n : Nat) :
    strictAlt (altPairs n) = true ∧ strictAlt (Role.assistant :: altPairs n) = true := by
  induction n with
  | zero => exact ⟨rfl, rfl⟩
  | succ n ih =>
    have h1 : strictAlt (Role.user :: Role.assistant :: altPairs n) = true := by
      rw [strictAlt]
      simp [ih.2]
    refine ⟨h1, ?_⟩
    show strictAlt (Role.assistant :: Role.user :: Role.assistant :: altPairs n) = true
    rw [strictAlt, h1]
    rfl

theorem strictAlt_dropWhile (n : Nat) :
    strictAlt (List.dropWhile (fun r => r != Role.user) (Role.assistant :: altPairs n)) =
      true := by
  cases n with
  | zero => decide
  | succ n =>
    have hdrop : List.dropWhile (fun r => r != Role.user)
        (Role.assistant :: altPairs (n + 1)) = altPairs (n + 1) := by
      show List.dropWhile (fun r => r != Role.user)
          (Role.assistant :: Role.user :: Role.assistant :: altPairs n) =
        Role.user :: Role.assistant :: altPairs n
      rw [List.dropWhile_cons_of_pos (by decide), List.dropWhile_cons_of_neg (by decide)]
    rw [hdrop]
    exact (strictAlt_altPairs (n + 1)).1

theorem chatStep_preserves_earlier_turns (s : ChatState) (e : ChatEvent) (i : Nat)
    (h : i + 1 < s.messages.length) :
    (chatStep s e).messages[i]? = s.messages[i]? := by
  cases e with
  | setInput t => rw [chatStep]; split <;> rfl
  | serverReady => rfl
  | streamDone => rfl
  | sendStart =>
    rw [chatStep, handleSendStart]
    split
    · exact List.getElem?_append_left (by omega)
    · rfl
  | chunk c =>
    rw [chatStep]; split
    · exact updateLast_getElem? _ s.messages i h
    · rfl
  | streamFail =>
    rw [chatStep]; split
    · exact updateLast_getElem? _ s.messages i h
    · rfl

/-- Claim C9: in every reachable conversation state, the turns from the
first user turn onward strictly alternate between the user and assistant
roles, and no UI event ever changes any turn other than the last one —
every earlier turn, text included, is frozen. -/
theorem C9_alternation_and_frozen_turns (g : String) (s : ChatState) (h : Reachable g s) :
    strictAlt (List.dropWhile (fun r => r != Role.user) (s.messages.map Turn.role)) = true ∧
    ∀ (e : ChatEvent) (i : Nat), i + 1 < s.messages.length →
      (chatStep s e).messages[i]? = s.messages[i]? := by
  obtain ⟨n, hn⟩ := reachable_wf g s h
  exact ⟨by rw [hn]; exact strictAlt_dropWhile n,
    fun e i hi => chatStep_preserves_earlier_turns s e i hi⟩

/-- Claim C9 witness: the seeded initial state is reachable and its role
sequence from the first user turn onward (empty) strictly alternates. -/
theorem C9_witness :
    strictAlt (List.dropWhile (fun r => r != Role.user)
        ((initChatState "hello").messages.map Turn.role)) = true :=
  (C9_alternation_and_frozen_turns "hello" (initChatState "hello") Reachable.init).1

end FPLChatbot
